import Mathlib

/-!
Verification of the smart-waste-management backend's role-scoped
authorization and lifecycle logic.

The JavaScript handlers in `src/controllers/collectionController.js`,
`src/controllers/reportController.js` (which also holds the user
controller) and the route files are embedded shallowly below:

* Mongo ObjectIds are modelled as `Nat` (a real ObjectId string is never
  empty, hence always truthy in JS).
* JSON/body string values are `String`; an absent (`undefined`) field is
  `none`; JS truthiness of a string value is "non-empty"
  (`truthyOpt`).  Date values travel as strings; `new Date()` at handler
  time is passed in explicitly as the `now` argument.
* The Mongo query object a list handler builds is reified as a record of
  optional equality constraints plus an optional `$or` list, with
  `matchesCollectionQuery` giving the store's matching semantics;
  `find` is `List.filter` (the `sort`/`populate` decorations do not
  affect membership and are not modelled).
* `findByIdAndUpdate` with a partial `updateFields` object is
  `apply…Update`: each field present in the update overwrites the stored
  field, absent fields are preserved.  The automatic `updatedAt`
  timestamp bookkeeping of the schema layer is outside the modelled
  fields.
* `images`, `location.coordinates` and the schema timestamps are never
  read or written by the embedded handlers and are omitted from the
  record types.
-/

namespace WasteMgmt

/-- The three roles of `User.role` (`src/models`, auth middleware). -/
inductive Role where
  | admin
  | collector
  | resident
deriving DecidableEq, Repr

/-- The identity context `req.user = {id, role, zone}` attached by the
`protect` middleware. -/
structure UserCtx where
  id : Nat
  role : Role
  zone : Option String := none
deriving DecidableEq, Repr

/-- JS truthiness of an optional string field: `undefined` and the empty
string are falsy, every other string is truthy. -/
def truthyOpt : Option String → Bool
  | none => false
  | some s => !(s == "")

/-- `a || b` on an optional string with a default, as in
`wasteType || 'general'`. -/
def orDefault (o : Option String) (d : String) : String :=
  match o with
  | none => d
  | some s => if s == "" then d else s

/-- The nested `address` subdocument of a Collection
(`src/models/Collection.js` lines 14–25). -/
structure Address where
  street : String
  city : String
  state : Option String := none
  zipCode : Option String := none
deriving DecidableEq, Repr

/-- A stored Collection document (`src/models/Collection.js`).  `status`,
`wasteType`, `priority` are kept as strings exactly as the handlers
compare them. -/
structure Collection where
  resident : Nat
  collector : Option Nat := none
  address : Address
  zone : String
  wasteType : String := "general"
  status : String := "pending"
  priority : String := "medium"
  scheduledDate : Option String := none
  completedDate : Option String := none
  description : Option String := none
  notes : Option String := none
deriving DecidableEq, Repr

/-- The query-string parameters read by `getAllCollections`
(`collectionController.js` line 8). -/
structure ListQueryParams where
  status : Option String := none
  zone : Option String := none
  wasteType : Option String := none
  priority : Option String := none
deriving DecidableEq, Repr

/-- One member of the `$or` array built for collectors: a conjunction of
field-equality constraints (`collectionController.js` lines 18–28). -/
structure OrCond where
  collector : Option Nat := none
  zone : Option String := none
  status : Option String := none
deriving DecidableEq, Repr

/-- The Mongo query object built by `getAllCollections`: optional
top-level equality constraints plus an optional `$or`. -/
structure CollectionQuery where
  resident : Option Nat := none
  orConds : Option (List OrCond) := none
  status : Option String := none
  zone : Option String := none
  wasteType : Option String := none
  priority : Option String := none
deriving Repr

/-- Store semantics of one `$or` branch: every constraint present in the
branch must hold of the document. -/
def matchesOrCond (c : Collection) (f : OrCond) : Bool :=
  f.collector.all (fun v => c.collector == some v) &&
  f.zone.all (fun v => c.zone == v) &&
  f.status.all (fun v => c.status == v)

/-- Store semantics of the whole query object: all top-level equality
constraints hold and, when a `$or` is present, at least one branch
matches. -/
def matchesCollectionQuery (q : CollectionQuery) (c : Collection) : Bool :=
  q.resident.all (fun v => c.resident == v) &&
  (match q.orConds with
   | none => true
   | some conds => conds.any (fun f => matchesOrCond c f)) &&
  q.status.all (fun v => c.status == v) &&
  q.zone.all (fun v => c.zone == v) &&
  q.wasteType.all (fun v => c.wasteType == v) &&
  q.priority.all (fun v => c.priority == v)

/-- Query construction of `getAllCollections`
(`collectionController.js` lines 11–37): role filter first (resident
ownership, or the collector `$or` whose second branch depends on the
truthiness of `req.user.zone`), then the additional equality filters,
`zone` being admin-only. -/
def buildCollectionsQuery (user : UserCtx) (p : ListQueryParams) : CollectionQuery :=
  let q : CollectionQuery :=
    if user.role = Role.resident then
      { resident := some user.id }
    else if user.role = Role.collector then
      { orConds := some
          (if truthyOpt user.zone then
            [{ collector := some user.id },
             { zone := user.zone, status := some "pending" }]
          else
            [{ collector := some user.id },
             { status := some "pending" }]) }
    else
      {}
  let q := if truthyOpt p.status then { q with status := p.status } else q
  let q := if truthyOpt p.zone ∧ user.role = Role.admin then { q with zone := p.zone } else q
  let q := if truthyOpt p.wasteType then { q with wasteType := p.wasteType } else q
  let q := if truthyOpt p.priority then { q with priority := p.priority } else q
  q

/-- `GET /collections` (`getAllCollections`): the documents of the store
matching the role-scoped query. -/
def getAllCollections (user : UserCtx) (p : ListQueryParams) (db : List Collection) :
    List Collection :=
  db.filter (fun c => matchesCollectionQuery (buildCollectionsQuery user p) c)

/-- `GET /collections/:id` on a found record (`getCollection`,
`collectionController.js` lines 75–99): residents are denied on records
they do not own; collectors are denied exactly when a collector is
present on the record and differs from the caller.  Returns the HTTP
status; a read never mutates. -/
def getCollection (user : UserCtx) (col : Collection) : Nat :=
  if user.role = Role.resident ∧ col.resident ≠ user.id then 403
  else
    match col.collector with
    | some k => if user.role = Role.collector ∧ k ≠ user.id then 403 else 200
    | none => 200

/-- The request body fields read by `updateCollection`
(`collectionController.js` lines 200–207); `none` is `undefined`. -/
structure UpdateCollectionBody where
  collector : Option Nat := none
  status : Option String := none
  scheduledDate : Option String := none
  completedDate : Option String := none
  description : Option String := none
  notes : Option String := none
deriving DecidableEq, Repr

/-- The partial `updateFields` object assembled by `updateCollection`:
a present entry will overwrite the stored field. -/
structure CollectionUpdateFields where
  collector : Option Nat := none
  status : Option String := none
  completedDate : Option String := none
  scheduledDate : Option String := none
  notes : Option String := none
  description : Option String := none
deriving DecidableEq, Repr

/-- `updateFields` construction (`collectionController.js` lines
210–224): admin/collector may stage collector, status, scheduledDate and
notes, with `completedDate = completedDate || new Date()` staged exactly
when the staged status is `completed`; `description` is staged for every
role. -/
def collectionUpdateFields (user : UserCtx) (body : UpdateCollectionBody) (now : String) :
    CollectionUpdateFields :=
  let f : CollectionUpdateFields := {}
  let f :=
    if user.role = Role.admin ∨ user.role = Role.collector then
      { f with
        collector := body.collector,
        status := body.status,
        completedDate :=
          match body.status with
          | some s =>
            if s = "completed" then
              some (orDefault body.completedDate now)
            else none
          | none => none,
        scheduledDate := body.scheduledDate,
        notes := body.notes }
    else f
  { f with description := body.description }

/-- `findByIdAndUpdate` semantics: fields present in `updateFields`
overwrite the document, absent fields are kept. -/
def applyCollectionUpdate (c : Collection) (f : CollectionUpdateFields) : Collection :=
  { c with
    collector := match f.collector with | some v => some v | none => c.collector,
    status := f.status.getD c.status,
    completedDate := match f.completedDate with | some v => some v | none => c.completedDate,
    scheduledDate := match f.scheduledDate with | some v => some v | none => c.scheduledDate,
    notes := match f.notes with | some v => some v | none => c.notes,
    description := match f.description with | some v => some v | none => c.description }

/-- `PUT /collections/:id` on a found record (`updateCollection`,
`collectionController.js` lines 183–241).  Returns the HTTP status and
the stored record after the request (unchanged on 403/400).  Note the
authorization block checks residents only: a non-owner resident gets
403, an owner resident with non-pending status gets 400, and every
admin or collector request goes straight to the update. -/
def updateCollection (user : UserCtx) (col : Collection) (body : UpdateCollectionBody)
    (now : String) : Nat × Collection :=
  if user.role = Role.resident then
    if col.resident ≠ user.id then (403, col)
    else if col.status ≠ "pending" then (400, col)
    else (200, applyCollectionUpdate col (collectionUpdateFields user body now))
  else (200, applyCollectionUpdate col (collectionUpdateFields user body now))

/-- `DELETE /collections/:id` on a found record (`deleteCollection`,
`collectionController.js` lines 266–282): only admin or the owning
resident may delete.  Returns the HTTP status and whether the record was
deleted. -/
def deleteCollection (user : UserCtx) (col : Collection) : Nat × Bool :=
  if user.role ≠ Role.admin ∧ col.resident ≠ user.id then (403, false)
  else (200, true)

/-- `PUT /collections/:id/assign` on a found record (`assignCollector`,
`collectionController.js` lines 298–330): the assignment target is the
caller for a collector and the body's `collectorId` otherwise; a missing
target is a 400 with no write; otherwise collector and status are
overwritten. -/
def assignCollector (user : UserCtx) (col : Collection) (collectorId : Option Nat) :
    Nat × Collection :=
  let assigned := if user.role = Role.collector then some user.id else collectorId
  match assigned with
  | none => (400, col)
  | some cid => (200, { col with collector := some cid, status := "assigned" })

/-- The request body of `POST /collections` (`collectionController.js`
lines 116–123).  `status`, `resident` and `collector` may be present in
the JSON but are never destructured by the handler; they are carried
here so that their being ignored is expressible. -/
structure CreateCollectionBody where
  address : Option Address := none
  zone : Option String := none
  wasteType : Option String := none
  priority : Option String := none
  scheduledDate : Option String := none
  description : Option String := none
  status : Option String := none
  resident : Option Nat := none
  collector : Option Nat := none
deriving DecidableEq, Repr

/-- `POST /collections` (`createCollection`, `collectionController.js`
lines 114–158): 400 when the address is incomplete or the zone is
missing, otherwise the created document (201) with the caller as
resident, status `pending`, defaulted wasteType/priority, and no
collector, completedDate or notes. -/
def createCollection (user : UserCtx) (body : CreateCollectionBody) :
    Nat × Option Collection :=
  match body.address with
  | none => (400, none)
  | some a =>
    if a.street == "" ∨ a.city == "" then (400, none)
    else if !truthyOpt body.zone then (400, none)
    else
      (201, some
        { resident := user.id
          collector := none
          address := a
          zone := body.zone.getD ""
          wasteType := orDefault body.wasteType "general"
          priority := orDefault body.priority "medium"
          status := "pending"
          scheduledDate := body.scheduledDate
          completedDate := none
          description := body.description
          notes := none })

/-- A stored Report document (`src/models/Report.js`); the fields the
update handler can reach plus the creation fields. -/
structure Report where
  reportedBy : Nat
  collection : Option Nat := none
  type : String
  title : String
  description : String
  zone : Option String := none
  status : String := "open"
  priority : String := "medium"
  resolution : Option String := none
  resolvedBy : Option Nat := none
  resolvedDate : Option String := none
deriving DecidableEq, Repr

/-- The request body fields read by `updateReport`
(`reportController.js` line 180). -/
structure UpdateReportBody where
  status : Option String := none
  priority : Option String := none
  resolution : Option String := none
deriving DecidableEq, Repr

/-- The partial `updateFields` object assembled by `updateReport`. -/
structure ReportUpdateFields where
  status : Option String := none
  priority : Option String := none
  resolution : Option String := none
  resolvedBy : Option Nat := none
  resolvedDate : Option String := none
deriving DecidableEq, Repr

/-- `updateFields` construction of `updateReport`
(`reportController.js` lines 185–195): only admin/collector stage
anything; staging a status of `resolved` or `closed` also stages the
caller as `resolvedBy` and the current time as `resolvedDate`. -/
def reportUpdateFields (user : UserCtx) (body : UpdateReportBody) (now : String) :
    ReportUpdateFields :=
  if user.role = Role.admin ∨ user.role = Role.collector then
    { status := body.status
      resolvedBy :=
        match body.status with
        | some s => if s = "resolved" ∨ s = "closed" then some user.id else none
        | none => none
      resolvedDate :=
        match body.status with
        | some s => if s = "resolved" ∨ s = "closed" then some now else none
        | none => none
      priority := body.priority
      resolution := body.resolution }
  else {}

/-- `findByIdAndUpdate` semantics for Report. -/
def applyReportUpdate (r : Report) (f : ReportUpdateFields) : Report :=
  { r with
    status := f.status.getD r.status,
    priority := f.priority.getD r.priority,
    resolution := match f.resolution with | some v => some v | none => r.resolution,
    resolvedBy := match f.resolvedBy with | some v => some v | none => r.resolvedBy,
    resolvedDate := match f.resolvedDate with | some v => some v | none => r.resolvedDate }

/-- `PUT /reports/:id` on a found record (`updateReport`,
`reportController.js` lines 170–209): a non-owner resident is denied;
every other request applies the role-filtered update fields (empty for a
resident) and answers 200. -/
def updateReport (user : UserCtx) (rep : Report) (body : UpdateReportBody) (now : String) :
    Nat × Report :=
  if user.role = Role.resident ∧ rep.reportedBy ≠ user.id then (403, rep)
  else (200, applyReportUpdate rep (reportUpdateFields user body now))

/-- A stored User document, reduced to the fields the delete handler
reads. -/
structure User where
  id : Nat
  role : Role := Role.resident
  isActive : Bool := true
deriving DecidableEq, Repr

/-- `DELETE /users/:id` on a found user (`deleteUser` in the user
controller, lines 597–605 of the concatenated controller file): a
caller may never delete their own account (400, nothing deleted);
otherwise the user is deleted.  Returns the HTTP status and whether the
deletion happened. -/
def deleteUser (caller : UserCtx) (target : User) : Nat × Bool :=
  if target.id = caller.id then (400, false)
  else (200, true)

/-- A sample unassigned pending record in zone Z1, used to instantiate
theorems at concrete inputs. -/
def cPendingZ1 : Collection :=
  { resident := 5, address := { street := "Main", city := "Town" },
    zone := "Z1", status := "pending" }

/-- A sample unassigned pending record in zone Z9, used to instantiate
theorems at concrete inputs. -/
def cPendingZ9 : Collection :=
  { resident := 5, address := { street := "Main", city := "Town" },
    zone := "Z9", status := "pending" }

/-- Claim C5: `PUT /collections/:id/assign` on an existing record: a
collector caller has any `collectorId` of the body ignored and the
record's collector set to the caller's own id with status `assigned`;
an admin caller with no `collectorId` in the body gets 400 and the
record is unchanged. -/
theorem c5_assign_rules (u : UserCtx) (c : Collection) (cid : Option Nat) :
    (u.role = Role.collector →
      assignCollector u c cid = (200, { c with collector := some u.id, status := "assigned" }))
    ∧ (u.role = Role.admin → assignCollector u c none = (400, c)) := by
  constructor
  · intro h
    simp [assignCollector, h]
  · intro h
    simp [assignCollector, h]

/-- Witness for C5 at a concrete collector and admin call. -/
theorem c5_assign_rules_witness :
    assignCollector { id := 3, role := Role.collector }
      { resident := 5, address := { street := "Main", city := "Town" }, zone := "Z1" }
      (some 9)
    = (200, { resident := 5, collector := some 3,
              address := { street := "Main", city := "Town" }, zone := "Z1",
              status := "assigned" })
    ∧ assignCollector { id := 4, role := Role.admin }
      { resident := 5, address := { street := "Main", city := "Town" }, zone := "Z1" }
      none
    = (400, { resident := 5, address := { street := "Main", city := "Town" }, zone := "Z1" }) :=
  ⟨(c5_assign_rules _ _ _).1 rfl, (c5_assign_rules _ _ none).2 rfl⟩

/-- Claim C7: a `PUT` on a Collection owned by the calling resident
whose status is not `pending` answers 400 regardless of the payload and
leaves the stored record unchanged. -/
theorem c7_resident_update_nonpending (u : UserCtx) (c : Collection)
    (b : UpdateCollectionBody) (now : String)
    (hrole : u.role = Role.resident) (hown : c.resident = u.id)
    (hst : c.status ≠ "pending") :
    updateCollection u c b now = (400, c) := by
  simp [updateCollection, hrole, hown, hst]

/-- Witness for C7 at a concrete owner resident and an assigned record. -/
theorem c7_resident_update_nonpending_witness :
    updateCollection { id := 1, role := Role.resident }
      { resident := 1, address := { street := "Main", city := "Town" }, zone := "Z1",
        status := "assigned" }
      { description := some "new" } "T1"
    = (400, { resident := 1, address := { street := "Main", city := "Town" }, zone := "Z1",
              status := "assigned" }) :=
  c7_resident_update_nonpending _ _ _ _ rfl rfl (by decide)

/-- Claim C8: a Report update by a resident on a report they own leaves
the stored Report unchanged in every field — submitted status, priority
and resolution are silently ignored — and still answers 200; only
admin or collector callers can change those fields (the resident role is
the only other role). -/
theorem c8_resident_report_update_ignored (u : UserCtx) (r : Report)
    (b : UpdateReportBody) (now : String)
    (hrole : u.role = Role.resident) (hown : r.reportedBy = u.id) :
    updateReport u r b now = (200, r) := by
  have hneg : ¬(u.role = Role.resident ∧ r.reportedBy ≠ u.id) := by
    simp [hrole, hown]
  simp [updateReport, hneg, hrole, reportUpdateFields, applyReportUpdate]
  exact hown

/-- Witness for C8 at a concrete owner resident submitting status,
priority and resolution. -/
theorem c8_resident_report_update_ignored_witness :
    updateReport { id := 6, role := Role.resident }
      { reportedBy := 6, type := "full-bin", title := "t", description := "d" }
      { status := some "resolved", priority := some "urgent", resolution := some "done" } "T1"
    = (200, { reportedBy := 6, type := "full-bin", title := "t", description := "d" }) :=
  c8_resident_report_update_ignored _ _ _ _ rfl rfl

/-- Claim C9: `DELETE /users/:id` where the target's id equals the
authenticated caller's answers 400 and deletes nothing; deletion
proceeds exactly when target and caller differ. -/
theorem c9_no_self_delete (caller : UserCtx) (target : User) :
    (target.id = caller.id → deleteUser caller target = (400, false))
    ∧ (target.id ≠ caller.id → deleteUser caller target = (200, true)) := by
  constructor <;> intro h <;> simp [deleteUser, h]

/-- Witness for C9 at a concrete self-delete and a concrete
other-delete. -/
theorem c9_no_self_delete_witness :
    deleteUser { id := 1, role := Role.admin } { id := 1 } = (400, false)
    ∧ deleteUser { id := 1, role := Role.admin } { id := 2 } = (200, true) :=
  ⟨(c9_no_self_delete _ _).1 rfl, (c9_no_self_delete _ _).2 (by decide)⟩

/-- Claim C10: every successful Collection create stores status
`pending`, the caller as resident, and no collector, completedDate or
notes, whatever the body (including any status, resident or collector
values it carries). -/
theorem c10_create_defaults (u : UserCtx) (b : CreateCollectionBody) (code : Nat)
    (col : Collection) (h : createCollection u b = (code, some col)) :
    code = 201 ∧ col.status = "pending" ∧ col.resident = u.id ∧ col.collector = none
      ∧ col.completedDate = none ∧ col.notes = none := by
  unfold createCollection at h
  split at h
  · simp at h
  · split at h
    · simp at h
    · split at h
      · simp at h
      · simp only [Prod.mk.injEq, Option.some.injEq] at h
        obtain ⟨rfl, rfl⟩ := h
        exact ⟨rfl, rfl, rfl, rfl, rfl, rfl⟩

/-- Witness for C10: a body supplying status, resident and collector
still creates a pending, unassigned record owned by the caller. -/
theorem c10_create_defaults_witness :
    (201 : Nat) = 201
    ∧ (Collection.status
        { resident := 7, collector := none,
          address := { street := "Main", city := "Town" }, zone := "Z1",
          wasteType := "general", status := "pending", priority := "medium" }) = "pending"
    ∧ (Collection.resident
        { resident := 7, collector := none,
          address := { street := "Main", city := "Town" }, zone := "Z1",
          wasteType := "general", status := "pending", priority := "medium" }) = 7
    ∧ (Collection.collector
        { resident := 7, collector := none,
          address := { street := "Main", city := "Town" }, zone := "Z1",
          wasteType := "general", status := "pending", priority := "medium" }) = none
    ∧ (Collection.completedDate
        { resident := 7, collector := none,
          address := { street := "Main", city := "Town" }, zone := "Z1",
          wasteType := "general", status := "pending", priority := "medium" }) = none
    ∧ (Collection.notes
        { resident := 7, collector := none,
          address := { street := "Main", city := "Town" }, zone := "Z1",
          wasteType := "general", status := "pending", priority := "medium" }) = none :=
  c10_create_defaults { id := 7, role := Role.resident }
    { address := some { street := "Main", city := "Town" }, zone := some "Z1",
      status := some "completed", resident := some 99, collector := some 42 }
    201 _ (by decide)

/-- Outside the admin/collector completed-status branch, no
`completedDate` entry is staged. -/
lemma collectionUpdateFields_completedDate_none (u : UserCtx) (b : UpdateCollectionBody)
    (now : String)
    (h : ¬((u.role = Role.admin ∨ u.role = Role.collector) ∧ b.status = some "completed")) :
    (collectionUpdateFields u b now).completedDate = none := by
  unfold collectionUpdateFields
  by_cases hrole : u.role = Role.admin ∨ u.role = Role.collector
  · have hst : b.status ≠ some "completed" := fun hc => h ⟨hrole, hc⟩
    cases hbs : b.status with
    | none => simp [hrole]
    | some s =>
      have hs : s ≠ "completed" := by
        intro hrfl
        exact hst (hrfl ▸ hbs)
      simp [hrole, hbs, hs]
  · simp [hrole]

/-- A stored record keeps its `completedDate` when none is staged. -/
lemma applyCollectionUpdate_completedDate (c : Collection) (f : CollectionUpdateFields)
    (h : f.completedDate = none) :
    (applyCollectionUpdate c f).completedDate = c.completedDate := by
  simp [applyCollectionUpdate, h]

/-- Claim C4: a Collection update that sets status to `completed`
stores the supplied `completedDate` when one is supplied (a date literal
is a non-empty string) and the current time otherwise; an update that
does not set status to `completed` never touches `completedDate`. -/
theorem c4_completed_stamp (u : UserCtx) (c : Collection) (b : UpdateCollectionBody)
    (now : String) :
    ((u.role = Role.admin ∨ u.role = Role.collector) → b.status = some "completed" →
      ((b.completedDate = none → (updateCollection u c b now).2.completedDate = some now)
        ∧ ∀ d, b.completedDate = some d → d ≠ "" →
            (updateCollection u c b now).2.completedDate = some d))
    ∧ (¬((u.role = Role.admin ∨ u.role = Role.collector) ∧ b.status = some "completed") →
        (updateCollection u c b now).2.completedDate = c.completedDate) := by
  constructor
  · intro hrole hst
    have hnr : u.role ≠ Role.resident := by
      rcases hrole with h | h <;> simp [h]
    constructor
    · intro hcd
      simp [updateCollection, hnr, applyCollectionUpdate, collectionUpdateFields,
        hrole, hst, hcd, orDefault]
    · intro d hd hne
      simp [updateCollection, hnr, applyCollectionUpdate, collectionUpdateFields,
        hrole, hst, hd, orDefault, hne]
  · intro hneg
    have hf := collectionUpdateFields_completedDate_none u b now hneg
    unfold updateCollection
    split
    · split
      · simp
      · split
        · simp
        · exact applyCollectionUpdate_completedDate _ _ hf
    · exact applyCollectionUpdate_completedDate _ _ hf

/-- Witness for C4: a concrete collector completing a collection with
no supplied date gets the current time; supplying a date keeps it; a
status change to `in-progress` leaves `completedDate` alone. -/
theorem c4_completed_stamp_witness :
    ((updateCollection { id := 3, role := Role.collector }
        { resident := 5, collector := some 3,
          address := { street := "Main", city := "Town" }, zone := "Z1",
          status := "in-progress" }
        { status := some "completed" } "T9").2.completedDate = some "T9")
    ∧ ((updateCollection { id := 3, role := Role.collector }
        { resident := 5, collector := some 3,
          address := { street := "Main", city := "Town" }, zone := "Z1",
          status := "in-progress" }
        { status := some "completed", completedDate := some "D7" } "T9").2.completedDate
          = some "D7")
    ∧ ((updateCollection { id := 3, role := Role.collector }
        { resident := 5, collector := some 3,
          address := { street := "Main", city := "Town" }, zone := "Z1",
          completedDate := some "D0", status := "assigned" }
        { status := some "in-progress" } "T9").2.completedDate = some "D0") :=
  ⟨((c4_completed_stamp _ _ _ _).1 (Or.inr rfl) rfl).1 rfl,
   ((c4_completed_stamp _ _ _ _).1 (Or.inr rfl) rfl).2 "D7" rfl (by decide),
   (c4_completed_stamp _ _ _ _).2 (by decide)⟩

/-- Claim C1 counterexample: collector 2 issues a `PUT` on a record
whose collector is 1; the claim demands a Forbidden verdict with the
record unchanged, but the handler answers 200 and writes the submitted
notes. -/
theorem c1_counterexample :
    updateCollection { id := 2, role := Role.collector }
      { resident := 5, collector := some 1,
        address := { street := "Main", city := "Town" }, zone := "Z1",
        status := "assigned" }
      { notes := some "done" } "T1"
    = (200,
      { resident := 5, collector := some 1,
        address := { street := "Main", city := "Town" }, zone := "Z1",
        status := "assigned", notes := some "done" })
    ∧ updateCollection { id := 2, role := Role.collector }
      { resident := 5, collector := some 1,
        address := { street := "Main", city := "Town" }, zone := "Z1",
        status := "assigned" }
      { notes := some "done" } "T1"
    ≠ (403,
      { resident := 5, collector := some 1,
        address := { street := "Main", city := "Town" }, zone := "Z1",
        status := "assigned" }) := by
  constructor
  · rfl
  · decide

/-- Claim C1 as amended: on single-record reads, a collector is denied
exactly on a record carrying a different collector, and an absent
assignment does not block; a resident may read or mutate only a record
they own; admin is authorized for every operation; but the update
handler performs no collector-assignment check at all, so any collector
request updates the record (200), and a collector's delete is denied
only through the not-the-owning-resident rule. -/
theorem c1_auth_rules (u : UserCtx) (c : Collection) (b : UpdateCollectionBody)
    (now : String) :
    ((u.role = Role.collector → ∀ k, c.collector = some k → k ≠ u.id →
        getCollection u c = 403
        ∧ (c.resident ≠ u.id → deleteCollection u c = (403, false)))
      ∧ (u.role = Role.collector → c.collector = none → getCollection u c = 200)
      ∧ (u.role = Role.resident → c.resident ≠ u.id →
          getCollection u c = 403 ∧ updateCollection u c b now = (403, c)
          ∧ deleteCollection u c = (403, false))
      ∧ (u.role = Role.resident → c.resident = u.id → getCollection u c = 200)
      ∧ (u.role = Role.admin →
          getCollection u c = 200 ∧ (updateCollection u c b now).1 = 200
          ∧ deleteCollection u c = (200, true))
      ∧ (u.role = Role.collector → (updateCollection u c b now).1 = 200)) := by
  refine ⟨?_, ?_, ?_, ?_, ?_, ?_⟩
  · intro hrole k hc hk
    refine ⟨?_, ?_⟩
    · simp [getCollection, hrole, hc, hk]
    · intro hres
      simp [deleteCollection, hrole, hres]
  · intro hrole hc
    simp [getCollection, hrole, hc]
  · intro hrole hres
    refine ⟨?_, ?_, ?_⟩
    · simp [getCollection, hrole, hres]
    · simp [updateCollection, hrole, hres]
    · simp [deleteCollection, hrole, hres]
  · intro hrole hres
    cases hc : c.collector with
    | none => simp [getCollection, hrole, hres, hc]
    | some k => simp [getCollection, hrole, hres, hc]
  · intro hrole
    refine ⟨?_, ?_, ?_⟩
    · cases hc : c.collector with
      | none => simp [getCollection, hrole, hc]
      | some k => simp [getCollection, hrole, hc]
    · simp [updateCollection, hrole]
    · simp [deleteCollection, hrole]
  · intro hrole
    simp [updateCollection, hrole]

/-- Witness for the amended C1 at concrete calls: collector 2 denied a
read of a record assigned to 1, allowed a read of an unassigned record,
and allowed an update of the foreign-assigned record. -/
theorem c1_auth_rules_witness :
    getCollection { id := 2, role := Role.collector }
      { resident := 5, collector := some 1,
        address := { street := "Main", city := "Town" }, zone := "Z1",
        status := "assigned" } = 403
    ∧ getCollection { id := 2, role := Role.collector }
      { resident := 5, collector := none,
        address := { street := "Main", city := "Town" }, zone := "Z1" } = 200
    ∧ (updateCollection { id := 2, role := Role.collector }
        { resident := 5, collector := some 1,
          address := { street := "Main", city := "Town" }, zone := "Z1",
          status := "assigned" } {} "T1").1 = 200 :=
  ⟨((c1_auth_rules _ _ {} "T1").1 rfl 1 rfl (by decide)).1,
   (c1_auth_rules _ _ {} "T1").2.1 rfl rfl,
   (c1_auth_rules _ _ {} "T1").2.2.2.2.2 rfl⟩

/-- Claim C6 counterexample: admin 10 resolves a report (stamping
resolvedBy 10 at D1); a later update by admin 20 that sets status to
`resolved` again re-stamps resolvedBy 20 at D2, so the stamp is not
set-once. -/
theorem c6_counterexample :
    ((updateReport { id := 10, role := Role.admin }
        { reportedBy := 5, type := "other", title := "t", description := "d" }
        { status := some "resolved" } "D1").2.resolvedBy = some 10)
    ∧ ((updateReport { id := 20, role := Role.admin }
        ((updateReport { id := 10, role := Role.admin }
          { reportedBy := 5, type := "other", title := "t", description := "d" }
          { status := some "resolved" } "D1").2)
        { status := some "resolved" } "D2").2.resolvedBy = some 20)
    ∧ ((updateReport { id := 20, role := Role.admin }
        ((updateReport { id := 10, role := Role.admin }
          { reportedBy := 5, type := "other", title := "t", description := "d" }
          { status := some "resolved" } "D1").2)
        { status := some "resolved" } "D2").2.resolvedDate = some "D2") := by
  refine ⟨rfl, rfl, rfl⟩

/-- Claim C6 as amended: `resolvedBy`/`resolvedDate` are stamped on
every admin/collector update that sets status to `resolved` or `closed`
— overwriting any earlier stamp, not set-once — and any update whose
status (if any) is neither `resolved` nor `closed` leaves the previously
recorded stamps untouched, so a resolved-then-reopened report retains
them. -/
theorem c6_resolution_stamp (u : UserCtx) (r : Report) (b : UpdateReportBody)
    (now : String) :
    ((u.role = Role.admin ∨ u.role = Role.collector) →
      ∀ s, b.status = some s → (s = "resolved" ∨ s = "closed") →
        (updateReport u r b now).2.resolvedBy = some u.id
        ∧ (updateReport u r b now).2.resolvedDate = some now)
    ∧ ((∀ s, b.status = some s → s ≠ "resolved" ∧ s ≠ "closed") →
        (updateReport u r b now).2.resolvedBy = r.resolvedBy
        ∧ (updateReport u r b now).2.resolvedDate = r.resolvedDate) := by
  constructor
  · intro hrole s hs hres
    have hnr : ¬(u.role = Role.resident ∧ r.reportedBy ≠ u.id) := by
      rcases hrole with h | h <;> simp [h]
    simp [updateReport, hnr, reportUpdateFields, applyReportUpdate, hrole, hs, hres]
  · intro hst
    unfold updateReport
    split
    · exact ⟨rfl, rfl⟩
    · unfold reportUpdateFields
      by_cases hrole : u.role = Role.admin ∨ u.role = Role.collector
      · cases hbs : b.status with
        | none => simp [hrole, applyReportUpdate]
        | some s =>
          obtain ⟨h1, h2⟩ := hst s hbs
          simp [hrole, applyReportUpdate, h1, h2]
      · simp [hrole, applyReportUpdate]

/-- Witness for the amended C6 at concrete calls: collector 9 closing a
report stamps themselves, and an admin reopening a stamped report keeps
the old stamp. -/
theorem c6_resolution_stamp_witness :
    ((updateReport { id := 9, role := Role.collector }
        { reportedBy := 5, type := "other", title := "t", description := "d" }
        { status := some "closed" } "D3").2.resolvedBy = some 9
      ∧ (updateReport { id := 9, role := Role.collector }
        { reportedBy := 5, type := "other", title := "t", description := "d" }
        { status := some "closed" } "D3").2.resolvedDate = some "D3")
    ∧ ((updateReport { id := 10, role := Role.admin }
        { reportedBy := 5, type := "other", title := "t", description := "d",
          status := "resolved", resolvedBy := some 9, resolvedDate := some "D3" }
        { status := some "open" } "D4").2.resolvedBy = some 9
      ∧ (updateReport { id := 10, role := Role.admin }
        { reportedBy := 5, type := "other", title := "t", description := "d",
          status := "resolved", resolvedBy := some 9, resolvedDate := some "D3" }
        { status := some "open" } "D4").2.resolvedDate = some "D3") :=
  ⟨(c6_resolution_stamp _ _ _ _).1 (Or.inr rfl) "closed" rfl (Or.inr rfl),
   (c6_resolution_stamp _ _ _ _).2 (by decide)⟩

/-- For a resident caller the built query always carries the ownership
constraint, whatever the extra filters. -/
lemma buildCollectionsQuery_resident (u : UserCtx) (p : ListQueryParams)
    (hrole : u.role = Role.resident) :
    (buildCollectionsQuery u p).resident = some u.id := by
  unfold buildCollectionsQuery
  rw [hrole]
  simp [apply_ite CollectionQuery.resident]

/-- For a collector caller with no extra filters the built query is just
the two-branch `$or`. -/
lemma buildCollectionsQuery_collector (u : UserCtx) (hrole : u.role = Role.collector) :
    buildCollectionsQuery u {} =
      { orConds := some
          (if truthyOpt u.zone then
            [{ collector := some u.id },
             { zone := u.zone, status := some "pending" }]
          else
            [{ collector := some u.id },
             { status := some "pending" }]) } := by
  unfold buildCollectionsQuery
  rw [hrole]
  rfl

/-- Claim C2: a collector with zone `Z` listing Collections with no
extra query filters gets exactly the records assigned to them or the
pending records of zone `Z`; with no (truthy) zone the second branch
widens to all pending records. -/
theorem c2_collector_list_scope (u : UserCtx) (z : String) (db : List Collection)
    (c : Collection) (hrole : u.role = Role.collector) :
    (u.zone = some z → z ≠ "" →
      (c ∈ getAllCollections u {} db ↔
        c ∈ db ∧ (c.collector = some u.id ∨ (c.zone = z ∧ c.status = "pending"))))
    ∧ (truthyOpt u.zone = false →
      (c ∈ getAllCollections u {} db ↔
        c ∈ db ∧ (c.collector = some u.id ∨ c.status = "pending"))) := by
  constructor
  · intro hz hne
    have htz : truthyOpt (some z) = true := by simp [truthyOpt, hne]
    unfold getAllCollections
    rw [List.mem_filter, buildCollectionsQuery_collector u hrole, hz]
    simp [matchesCollectionQuery, matchesOrCond, htz, Option.all,
      List.any_cons, List.any_nil]
  · intro htz
    unfold getAllCollections
    rw [List.mem_filter, buildCollectionsQuery_collector u hrole]
    simp [matchesCollectionQuery, matchesOrCond, htz, Option.all,
      List.any_cons, List.any_nil]

/-- Witness for C2: a concrete zoned collector sees a foreign pending
record of their zone, and a concrete zoneless collector sees a pending
record of any zone. -/
theorem c2_collector_list_scope_witness :
    (cPendingZ1 ∈ getAllCollections { id := 2, role := Role.collector, zone := some "Z1" }
        {} [cPendingZ1]
      ↔ cPendingZ1 ∈ [cPendingZ1]
        ∧ (cPendingZ1.collector = some 2 ∨ (cPendingZ1.zone = "Z1" ∧ cPendingZ1.status = "pending")))
    ∧ (cPendingZ9 ∈ getAllCollections { id := 2, role := Role.collector } {} [cPendingZ9]
      ↔ cPendingZ9 ∈ [cPendingZ9]
        ∧ (cPendingZ9.collector = some 2 ∨ cPendingZ9.status = "pending")) :=
  ⟨(c2_collector_list_scope _ "Z1" _ _ rfl).1 rfl (by decide),
   (c2_collector_list_scope _ "" _ _ rfl).2 rfl⟩

/-- Claim C3: every record a resident's Collection listing returns is
owned by the caller, whatever the query parameters. -/
theorem c3_resident_list_scope (u : UserCtx) (p : ListQueryParams) (db : List Collection)
    (c : Collection) (hrole : u.role = Role.resident)
    (hc : c ∈ getAllCollections u p db) :
    c.resident = u.id := by
  unfold getAllCollections at hc
  rw [List.mem_filter] at hc
  have hm := hc.2
  unfold matchesCollectionQuery at hm
  rw [buildCollectionsQuery_resident u p hrole] at hm
  simp [Option.all, Bool.and_eq_true] at hm
  exact hm.1.1.1.1.1

/-- Witness for C3 at a concrete resident and a one-record store,
with a stray zone filter supplied. -/
theorem c3_resident_list_scope_witness :
    ({ resident := 7, address := { street := "Main", city := "Town" },
       zone := "Z1" } : Collection).resident = 7 :=
  c3_resident_list_scope { id := 7, role := Role.resident } { zone := some "Z9" }
    [{ resident := 7, address := { street := "Main", city := "Town" }, zone := "Z1" }]
    _ rfl (by decide)

end WasteMgmt
